import Mathlib

/-!
Shallow embedding of GitShift's `RepositoryProvider`
(`src/repositoryWebview.ts`): the orchestration layer between the
VS Code webview surface and the git / generation backends.  Machine
integers are modelled as `Nat` (timestamps in milliseconds), fallible
backend calls as `Except String`, and the webview message channel as an
explicit list of outbound events.
-/

namespace GitShift

/-- Repository snapshot as returned by `getGitStatus` (`GitStatus` in
`gitOperations.ts`): branch, ahead/behind counts, and the three file
lists. -/
structure GitStatus where
  branch : String
  ahead : Nat
  behind : Nat
  staged : List String
  unstaged : List String
  untracked : List String
deriving Repr, DecidableEq

/-- Outbound effects observable from a handler run: webview messages
(`postMessage`), user notifications, and the log of backend calls. -/
inductive Event where
  | postClearLoading (buttonId : String)
  | postClearAllLoading
  | postCommitMessageGenerated (message : String)
  | render
  | infoMsg (s : String)
  | warnMsg (s : String)
  | errorMsg (s : String) (modal : Bool)
  | call (name : String)
  | cancelGeneration
  | uiEffect (s : String)
deriving Repr, DecidableEq

/-- The cache guard of `_getHtmlContent` (line 532):
`this._cachedStatus && Date.now() - this._lastRefresh < 2000`.
JS subtraction of timestamps is modelled with truncated `Nat`
subtraction, which agrees with the JS comparison whenever
`lastRefresh ≤ now` (and also when `now < lastRefresh`, where both
give a value below 2000). -/
def cachedStatusDecision (cachedStatus : Option GitStatus)
    (lastRefresh now : Nat) : Bool :=
  cachedStatus.isSome && (now - lastRefresh < 2000)

/-- Substring occurrence on character lists (helper for the JS
`String.prototype.match` tests below; kept structural so proofs can
evaluate it). -/
def listContainsSub (pat : List Char) : List Char → Bool
  | [] => pat.isEmpty
  | c :: t => pat.isPrefixOf (c :: t) || listContainsSub pat t

/-- Suffix test on character lists. -/
def listEndsWith (pat s : List Char) : Bool :=
  pat.reverse.isPrefixOf s.reverse

/-- Lower-cased character list of a string, modelling the `i` flag of
the JS regexes. -/
def lowerOf (s : String) : List Char :=
  s.toList.map Char.toLower

/-- A JS-style case-insensitive substring test: `s.match(/pat/i)` for a
literal alternative-free pattern `pat`. -/
def containsSub (s pat : String) : Bool :=
  listContainsSub pat.toList (lowerOf s)

/-- A JS-style case-insensitive suffix test: `s.match(/pat$/i)`. -/
def endsWithSub (s pat : String) : Bool :=
  listEndsWith pat.toList (lowerOf s)

/-- Split a character list at `/`, modelling `file.split('/')`. -/
def splitSlash : List Char → List (List Char)
  | [] => [[]]
  | c :: t =>
    let r := splitSlash t
    if c = '/' then [] :: r
    else
      match r with
      | [] => [[c]]
      | h :: t2 => (c :: h) :: t2

/-- `file.split('/').pop()` — the last path component. -/
def lastComponent (file : String) : String :=
  String.mk (((splitSlash file.toList).getLast?).getD file.toList)

/-- `file.match(/test|spec/i)` from the client-side
`generateCommitMessage` (line 2171). -/
def matchTestSpec (f : String) : Bool :=
  containsSub f "test" || containsSub f "spec"

/-- `file.match(/[.]md$/i)` (line 2173). -/
def matchMd (f : String) : Bool :=
  endsWithSub f ".md"

/-- `file.match(/[.](css|scss|less)$/i)` (line 2175). -/
def matchStyleExt (f : String) : Bool :=
  endsWithSub f ".css" || endsWithSub f ".scss" || endsWithSub f ".less"

/-- `file.match(/package[.]json|tsconfig|config|[.]jsonc$/i)`
(line 2177); the `$` anchor binds only to the last alternative. -/
def matchChoreFile (f : String) : Bool :=
  containsSub f "package.json" || containsSub f "tsconfig" ||
    containsSub f "config" || endsWithSub f ".jsonc"

/-- `file.match(/src|component|feature|page/i)` (line 2179). -/
def matchSrcFeat (f : String) : Bool :=
  containsSub f "src" || containsSub f "component" ||
    containsSub f "feature" || containsSub f "page"

/-- The seven category buckets of the client-side fallback generator, in
the insertion order of the JS object literal (line 2157):
`{feat, fix, docs, style, test, chore, refactor}`.  `Object.entries`
iterates them in exactly this order. -/
structure Cats where
  feat : List String
  fix : List String
  docs : List String
  style : List String
  test : List String
  chore : List String
  refactor : List String
deriving Repr, DecidableEq

def Cats.empty : Cats := ⟨[], [], [], [], [], [], []⟩

/-- One iteration of the `files.forEach` classification chain
(lines 2166-2186): first match in the order
test > docs > style > chore > feat(new) > fix(not new) > refactor. -/
def classifyFile (allUntracked : List String) (c : Cats) (file : String) : Cats :=
  let filename := lastComponent file
  let isNew := allUntracked.contains file
  if matchTestSpec file then { c with test := c.test ++ [filename] }
  else if matchMd file then { c with docs := c.docs ++ [filename] }
  else if matchStyleExt file then { c with style := c.style ++ [filename] }
  else if matchChoreFile file then { c with chore := c.chore ++ [filename] }
  else if isNew && matchSrcFeat file then { c with feat := c.feat ++ [filename] }
  else if !isNew then { c with fix := c.fix ++ [filename] }
  else { c with refactor := c.refactor ++ [filename] }

def catsOf (staged allUntracked : List String) : Cats :=
  staged.foldl (classifyFile allUntracked) Cats.empty

/-- Message text for one chosen category (lines 2192-2194):
first three file names joined by `", "`, then `" +N more"` when more
remain. -/
def renderCat (ty : String) (fs : List String) : String :=
  ty ++ ": " ++ String.intercalate ", " (fs.take 3) ++
    (if fs.length > 3 then " +" ++ toString (fs.length - 3) ++ " more" else "")

/-- The `for (const [type, fileList] of Object.entries(categories))`
loop (lines 2190-2197) plus the final `message || 'chore: update files'`:
the first non-empty bucket in object-insertion order wins. -/
def buildFromCats (c : Cats) : String :=
  if !c.feat.isEmpty then renderCat "feat" c.feat
  else if !c.fix.isEmpty then renderCat "fix" c.fix
  else if !c.docs.isEmpty then renderCat "docs" c.docs
  else if !c.style.isEmpty then renderCat "style" c.style
  else if !c.test.isEmpty then renderCat "test" c.test
  else if !c.chore.isEmpty then renderCat "chore" c.chore
  else if !c.refactor.isEmpty then renderCat "refactor" c.refactor
  else "chore: update files"

/-- The client-side `generateCommitMessage()` (lines 2148-2200), as a
function of the staged file list and the untracked file list read from
the DOM. -/
def generateCommitMessageClient (staged allUntracked : List String) : String :=
  if staged.isEmpty then "chore: update files"
  else buildFromCats (catsOf staged allUntracked)

/-- The mutable fields of `RepositoryProvider` that the claims are
about: `_isVisible`, `_cachedStatus`, `_lastRefresh`, `_activeTab`,
`_commitsLimit`, and whether `_generationCancelToken` is set (the
sequential view; the token's identity matters only for the overlap
model further down). -/
structure ProviderState where
  isVisible : Bool
  cachedStatus : Option GitStatus
  lastRefresh : Nat
  activeTab : String
  commitsLimit : Nat
  generationTokenActive : Bool
deriving Repr, DecidableEq

/-- Field initialisers of the class (lines 38-43). -/
def initialState : ProviderState :=
  { isVisible := false, cachedStatus := none, lastRefresh := 0,
    activeTab := "changes", commitsLimit := 20, generationTokenActive := false }

/-- Persistent backend repository state threaded through handlers: the
commit log.  `commit` appends to it; no handler ever removes from it
(there is no rollback path in the source). -/
structure BackendSt where
  commits : List String
deriving Repr, DecidableEq

/-- Outcome oracle for `generateDetailedCommitMessage`
(`commitMessageGenerator.ts`): success, a
`LanguageModelGenerationError`, or any other error. -/
inductive GenOutcome where
  | ok (message : String)
  | lmUnavailable
  | otherError (msg : String)
deriving Repr, DecidableEq

/-- Oracle fixing the outcome of each external call a single handler
run can make, and the user's answers to the confirmation dialogs.
`fallbackText` stands for `generateFallbackMessage(status)` — that
function lives in `commitMessageGenerator.ts`, outside the embedded
file, and no claim depends on its value. -/
structure Backend where
  isRepo : Bool
  statusResult : Except String GitStatus
  stageAllResult : Except String Unit
  stageFilesResult : Except String Unit
  unstageFilesResult : Except String Unit
  commitResult : Except String Unit
  pushResult : Except String Unit
  pullResult : Except String Unit
  fetchResult : Except String Unit
  discardResult : Except String Unit
  createBranchResult : Except String Unit
  checkoutResult : Except String Unit
  deleteBranchResult : Except String Unit
  confirmDiscard : Bool
  confirmDelete : Bool
  genOutcome : GenOutcome
  fallbackAccept : Bool
  fallbackText : String

/-- `_getHtmlContent` (lines 521-548), restricted to its effect on the
status cache and its backend-call trace.  The cached-status guard is
line 532.  A `getStatus` failure is swallowed by the
`catch { /* Silent fail */ }` and skips the remaining calls; failures
of `getBranches` / `getCurrentBranch` / `getCommitHistory` only affect
markup, so their outcomes are not modelled. -/
def getHtmlContent (b : Backend) (now : Nat) (st : ProviderState) :
    ProviderState × List Event :=
  if b.isRepo then
    if cachedStatusDecision st.cachedStatus st.lastRefresh now then
      (st, [.call "isGitRepository", .call "getBranches", .call "getCurrentBranch",
            .call "getCommitHistory"])
    else
      match b.statusResult with
      | .ok s =>
          ({ st with cachedStatus := some s },
           [.call "isGitRepository", .call "getStatus", .call "getBranches",
            .call "getCurrentBranch", .call "getCommitHistory"])
      | .error _ => (st, [.call "isGitRepository", .call "getStatus"])
  else (st, [.call "isGitRepository"])

/-- `_loadContent` (lines 165-178); the view is taken to exist (the
provider has been resolved).  Note `_lastRefresh` is stamped *before*
the HTML is built. -/
def loadContent (b : Backend) (now : Nat) (st : ProviderState) :
    ProviderState × List Event :=
  if !st.isVisible && st.lastRefresh > 0 then (st, [])
  else
    let st1 := { st with lastRefresh := now }
    ((getHtmlContent b now st1).1, (getHtmlContent b now st1).2 ++ [Event.render])

/-- `refresh()` (lines 159-163): clear the cache, then reload. -/
def refreshM (b : Backend) (now : Nat) (st : ProviderState) :
    ProviderState × List Event :=
  loadContent b now { st with cachedStatus := none }

/-- The debounced file-watcher callback body (lines 201-206), at the
moment the timer fires: invalidate the cache and refresh only when
visible. -/
def fireDebounce (b : Backend) (now : Nat) (st : ProviderState) :
    ProviderState × List Event :=
  let st1 := { st with cachedStatus := none }
  if st1.isVisible then refreshM b now st1 else (st1, [])

/-- The `onDidChangeVisibility` handler (lines 61-67): record the new
visibility, then reload only when now visible and the last refresh is
more than 2000 ms old. -/
def onVisibilityChange (b : Backend) (now : Nat) (visible : Bool)
    (st : ProviderState) : ProviderState × List Event :=
  let st1 := { st with isVisible := visible }
  if visible && now - st1.lastRefresh > 2000 then loadContent b now st1
  else (st1, [])

/-- The closed set of inbound commands of the `onDidReceiveMessage`
switch (lines 80-141). -/
inductive Cmd where
  | switchTab (tab : String)
  | refreshCmd
  | stageAllCmd
  | stageFile (file : String)
  | unstageFile (file : String)
  | commitCmd (message : String)
  | commitAndPush (message : String)
  | pushCmd
  | pullCmd
  | fetchCmd
  | discard (file : String)
  | openDiff (file : String)
  | createBranchCmd (name : String)
  | switchBranch (name : String)
  | deleteBranchCmd (name : String)
  | loadMore
  | openCommitDiff (hash : String)
  | generateCommitMessage
  | stopGeneration
deriving Repr, DecidableEq

/-- The JS guard `!message || !message.trim()` (lines 241, 257, 443):
the string is empty or trims to empty, i.e. is all whitespace. -/
def blankMsg (s : String) : Bool :=
  s == "" || s.toList.all (fun c => c.isWhitespace)

/-- Result of one handler run: provider state, backend state, the
ordered outbound/observable events, and the error it threw past the
handler (caught by the dispatch `catch`), if any. -/
structure HRes where
  st : ProviderState
  bst : BackendSt
  events : List Event
  thrown : Option String
deriving Repr, DecidableEq

/-- The per-command handler bodies (`_handleStageAll` … and the inline
`switchTab` / `refresh` cases of the message switch).  Each case is the
straight-line translation of the corresponding `_handleX` method; a
backend failure aborts the rest of the body and is recorded in
`thrown`.  The `generateCommitMessage` case is the whole-handler
(atomic) run of `_handleGenerateCommitMessage`; its interleaving with a
second request is modelled separately below. -/
def handle (b : Backend) (now : Nat) (st : ProviderState) (bst : BackendSt) :
    Cmd → HRes
  | .switchTab tab => ⟨{ st with activeTab := tab }, bst, [], none⟩
  | .refreshCmd =>
      ⟨(refreshM b now st).1, bst,
        (refreshM b now st).2 ++ [.postClearLoading "refreshBtn"], none⟩
  | .stageAllCmd =>
      match b.stageAllResult with
      | .error e => ⟨st, bst, [.call "stageAll"], some e⟩
      | .ok _ =>
          ⟨(refreshM b now st).1, bst,
            [.call "stageAll", .infoMsg "All changes staged"] ++ (refreshM b now st).2, none⟩
  | .stageFile _ =>
      match b.stageFilesResult with
      | .error e => ⟨st, bst, [.call "stageFiles"], some e⟩
      | .ok _ =>
          ⟨(refreshM b now st).1, bst, [.call "stageFiles"] ++ (refreshM b now st).2, none⟩
  | .unstageFile _ =>
      match b.unstageFilesResult with
      | .error e => ⟨st, bst, [.call "unstageFiles"], some e⟩
      | .ok _ =>
          ⟨(refreshM b now st).1, bst, [.call "unstageFiles"] ++ (refreshM b now st).2, none⟩
  | .commitCmd message =>
      if blankMsg message then
        ⟨st, bst, [.warnMsg "Commit message cannot be empty",
                   .postClearLoading "commitBtn"], none⟩
      else
        match b.commitResult with
        | .error e => ⟨st, bst, [.call "commit"], some e⟩
        | .ok _ =>
            ⟨(refreshM b now st).1, { bst with commits := bst.commits ++ [message] },
              [.call "commit", .infoMsg "Changes committed"] ++ (refreshM b now st).2 ++
                [.postClearLoading "commitBtn"], none⟩
  | .commitAndPush message =>
      if blankMsg message then
        ⟨st, bst, [.warnMsg "Commit message cannot be empty",
                   .postClearLoading "commitPushBtn"], none⟩
      else
        match b.commitResult with
        | .error e => ⟨st, bst, [.call "commit"], some e⟩
        | .ok _ =>
            let bst2 := { bst with commits := bst.commits ++ [message] }
            match b.pushResult with
            | .error e =>
                ⟨st, bst2, [.call "commit", .infoMsg "Changes committed",
                            .call "push"], some e⟩
            | .ok _ =>
                ⟨(refreshM b now st).1, bst2,
                  [.call "commit", .infoMsg "Changes committed",
                   .call "push", .infoMsg "Pushed to remote"] ++ (refreshM b now st).2 ++
                    [.postClearLoading "commitPushBtn"], none⟩
  | .pushCmd =>
      match b.pushResult with
      | .error e => ⟨st, bst, [.call "push"], some e⟩
      | .ok _ =>
          ⟨(refreshM b now st).1, bst,
            [.call "push", .infoMsg "Pushed to remote"] ++ (refreshM b now st).2 ++
              [.postClearLoading "pushBtn"], none⟩
  | .pullCmd =>
      match b.pullResult with
      | .error e => ⟨st, bst, [.call "pull"], some e⟩
      | .ok _ =>
          ⟨(refreshM b now st).1, bst,
            [.call "pull", .infoMsg "Pulled from remote"] ++ (refreshM b now st).2 ++
              [.postClearLoading "pullBtn"], none⟩
  | .fetchCmd =>
      match b.fetchResult with
      | .error e => ⟨st, bst, [.call "fetch"], some e⟩
      | .ok _ =>
          ⟨(refreshM b now st).1, bst,
            [.call "fetch", .infoMsg "Fetched from remote"] ++ (refreshM b now st).2 ++
              [.postClearLoading "fetchBtn"], none⟩
  | .discard _ =>
      if b.confirmDiscard then
        match b.discardResult with
        | .error e => ⟨st, bst, [.call "discardChanges"], some e⟩
        | .ok _ =>
            ⟨(refreshM b now st).1, bst,
              [.call "discardChanges", .infoMsg "Changes discarded"] ++ (refreshM b now st).2,
              none⟩
      else ⟨st, bst, [], none⟩
  | .openDiff _ =>
      -- pure editor-side navigation (lines 405-439); every failure is
      -- caught inside the handler and no provider state is touched
      ⟨st, bst, [.uiEffect "openDiff"], none⟩
  | .createBranchCmd name =>
      if blankMsg name then
        ⟨st, bst, [.warnMsg "Branch name cannot be empty"], none⟩
      else
        match b.createBranchResult with
        | .error e => ⟨st, bst, [.call "createBranch"], some e⟩
        | .ok _ =>
            ⟨(refreshM b now st).1, bst,
              [.call "createBranch", .infoMsg ("Branch created: " ++ name)] ++
                (refreshM b now st).2, none⟩
  | .switchBranch name =>
      match b.checkoutResult with
      | .error e => ⟨st, bst, [.call "checkoutBranch"], some e⟩
      | .ok _ =>
          ⟨(refreshM b now st).1, bst,
            [.call "checkoutBranch", .infoMsg ("Switched to branch: " ++ name)] ++
              (refreshM b now st).2, none⟩
  | .deleteBranchCmd name =>
      if b.confirmDelete then
        match b.deleteBranchResult with
        | .error e => ⟨st, bst, [.call "deleteBranch"], some e⟩
        | .ok _ =>
            ⟨(refreshM b now st).1, bst,
              [.call "deleteBranch", .infoMsg ("Branch deleted: " ++ name)] ++
                (refreshM b now st).2, none⟩
      else ⟨st, bst, [], none⟩
  | .loadMore =>
      ⟨(loadContent b now { st with commitsLimit := 50 }).1, bst,
        (loadContent b now { st with commitsLimit := 50 }).2, none⟩
  | .openCommitDiff _ => ⟨st, bst, [.uiEffect "openCommitPanel"], none⟩
  | .generateCommitMessage =>
      -- a fresh CancellationTokenSource is stored (line 278); the
      -- `finally` (lines 346-352) always disposes it and clears the
      -- field before the handler returns
      let stTok := { st with generationTokenActive := true }
      let stEnd := { stTok with generationTokenActive := false }
      match b.statusResult with
      | .error e =>
          -- `getGitStatus` throws inside the try; the catch's own
          -- `getGitStatus` (line 325) throws again, past the handler
          ⟨stEnd, bst, [.call "getStatus", .call "getStatus"], some e⟩
      | .ok _ =>
          match b.genOutcome with
          | .ok m =>
              ⟨stEnd, bst, [.call "getStatus", .call "generate",
                .postCommitMessageGenerated m,
                .postClearLoading "generateMsgBtn"], none⟩
          | .lmUnavailable =>
              let fb := if b.fallbackAccept
                then [Event.postCommitMessageGenerated b.fallbackText] else []
              ⟨stEnd, bst,
                [.call "getStatus", .call "generate", .call "getStatus",
                 .warnMsg "AI commit message generation is not available."] ++
                  fb ++ [.postClearLoading "generateMsgBtn"], none⟩
          | .otherError em =>
              let fb := if b.fallbackAccept
                then [Event.postCommitMessageGenerated b.fallbackText] else []
              ⟨stEnd, bst,
                [.call "getStatus", .call "generate", .call "getStatus",
                 .errorMsg ("Failed to generate AI commit message: " ++ em) false] ++
                  fb ++ [.postClearLoading "generateMsgBtn"], none⟩
  | .stopGeneration =>
      let evs := if st.generationTokenActive then [Event.cancelGeneration] else []
      ⟨st, bst, evs ++ [.postClearLoading "generateMsgBtn"], none⟩

/-- Which message types the dispatch `catch` treats as push-class
(line 145): `data.type === 'push' || data.type === 'commitAndPush'`. -/
def isPushClass : Cmd → Bool
  | .pushCmd => true
  | .commitAndPush _ => true
  | _ => false

/-- `onDidReceiveMessage` (lines 78-156): run the handler; on a thrown
error show exactly one error notification — modal iff push-class — and
post `clearAllLoading`. -/
def dispatch (b : Backend) (now : Nat) (st : ProviderState) (bst : BackendSt)
    (c : Cmd) : HRes :=
  let r := handle b now st bst c
  match r.thrown with
  | none => r
  | some e =>
      { r with
        events := r.events ++
          [.errorMsg ("GitShift: " ++ e) (isPushClass c), .postClearAllLoading],
        thrown := none }

/-- The fixed id list iterated by the webview's `clearAllLoading`
message handler (line 2055). -/
def clearAllIds : List String :=
  ["pushBtn", "pullBtn", "fetchBtn", "refreshBtn", "commitBtn", "commitPushBtn",
   "loadMoreBtn", "addBtn", "generateMsgBtn"]

/-- `'branch-' + name.replace(/[^a-zA-Z0-9]/g, '-')` — the per-row
loading-token id used by `switchToBranchWithLoading` and
`removeBranchWithLoading` (lines 2366, 2376). -/
def sanitizeBranchId (name : String) : String :=
  "branch-" ++ String.mk (name.toList.map (fun c => if c.isAlphanum then c else '-'))

/-- Effect of one outbound event on the set of busy loading tokens in
the webview DOM (message listener, lines 2050-2067).  A full `render`
replaces `webview.html`, recreating every affordance un-busy. -/
def applyEvent (loading : List String) : Event → List String
  | .postClearLoading tokenId => loading.filter (fun x => x ≠ tokenId)
  | .postClearAllLoading => loading.filter (fun x => !clearAllIds.contains x)
  | .render => []
  | _ => loading

/-- Fold a handler run's outbound events over the webview loading set. -/
def runEvents (loading : List String) (evs : List Event) : List String :=
  evs.foldl applyEvent loading

/-- The error notifications among a run's events. -/
def errorsOf (evs : List Event) : List Event :=
  evs.filter (fun e => match e with | .errorMsg _ _ => true | _ => false)

/-- The backend calls among a run's events. -/
def callsOf (evs : List Event) : List String :=
  evs.filterMap (fun e => match e with | .call n => some n | _ => none)

/-- `debouncedRefresh` (lines 197-207): each notification clears any
pending timer and arms a new one for 1000 ms later; the pending state
is the absolute deadline of the armed timer. -/
def debounceNotify (now : Nat) (_pending : Option Nat) : Option Nat :=
  some (now + 1000)

/-- Process a time-ordered list of notification instants against the
timer: a pending timer whose deadline has passed by the time the next
notification arrives has already fired (one cache invalidation at its
deadline); otherwise the notification cancels it.  Returns the final
pending deadline and the instants at which invalidations fired. -/
def debounceRun : Option Nat → List Nat → Option Nat × List Nat
  | pending, [] => (pending, [])
  | none, t :: ts => debounceRun (debounceNotify t none) ts
  | some d, t :: ts =>
      if d ≤ t then
        let (p, fs) := debounceRun (debounceNotify t (some d)) ts
        (p, d :: fs)
      else debounceRun (debounceNotify t (some d)) ts

/-- All invalidation instants produced by a notification sequence once
the line goes quiet: the run's firings plus the final pending timer
firing uninterrupted. -/
def debounceComplete (times : List Nat) : List Nat :=
  match debounceRun none times with
  | (some d, fs) => fs ++ [d]
  | (none, fs) => fs

/-- One `vscode.CancellationTokenSource` as observed through its
cancellation and disposal flags. -/
structure Token where
  id : Nat
  cancelled : Bool
  disposed : Bool
deriving Repr, DecidableEq

/-- State for the interleaved-generation model: the
`_generationCancelToken` field (by token id), every token source
created so far, a fresh-id counter, and the outbound events posted so
far. -/
structure GenState where
  fieldTok : Option Nat
  tokens : List Token
  nextId : Nat
  events : List Event
deriving Repr, DecidableEq

def genInit : GenState := ⟨none, [], 0, []⟩

def tokenCancelled (s : GenState) (tid : Nat) : Bool :=
  match s.tokens.find? (fun t => t.id == tid) with
  | some t => t.cancelled
  | none => false

def tokenDisposed (s : GenState) (tid : Nat) : Bool :=
  match s.tokens.find? (fun t => t.id == tid) with
  | some t => t.disposed
  | none => false

def disposeTok (s : GenState) (tid : Nat) : GenState :=
  { s with tokens :=
      s.tokens.map (fun t => if t.id == tid then { t with disposed := true } else t) }

def cancelTok (s : GenState) (tid : Nat) : GenState :=
  { s with tokens :=
      s.tokens.map (fun t => if t.id == tid then { t with cancelled := true } else t) }

/-- The synchronous prefix of `_handleGenerateCommitMessage`
(lines 275-278), up to its first await: a fresh
`CancellationTokenSource` is created and stored in
`_generationCancelToken`, overwriting — without cancelling or
disposing — whatever token was there.  Returns the new token's id. -/
def startGen (s : GenState) : GenState × Nat :=
  let tid := s.nextId
  ({ s with
      fieldTok := some tid,
      tokens := s.tokens ++ [⟨tid, false, false⟩],
      nextId := s.nextId + 1 }, tid)

/-- Resumption of a `_handleGenerateCommitMessage` run whose awaited
generation (started with token `tid`) has resolved (lines 285-294),
followed by its `finally` (lines 346-352).  Modelled from the spec for
the out-of-src generator: `generate` honours its cancellation handle,
so a cancelled token yields no result and no `commitMessageGenerated`
event; an uncancelled token resolves with `msg`, which the handler
posts before clearing the loading token.  Either way the `finally`
disposes whatever token the *field currently holds* and nulls the
field. -/
def completeGen (s : GenState) (tid : Nat) (msg : String) : GenState :=
  let s1 :=
    if tokenCancelled s tid then s
    else { s with events := s.events ++
            [.postCommitMessageGenerated msg, .postClearLoading "generateMsgBtn"] }
  match s1.fieldTok with
  | some fid => { disposeTok s1 fid with fieldTok := none }
  | none => s1

/-- `_handleStopGeneration` (lines 355-363): cancel the token currently
in the field, if any, then post `clearLoading` for the generate
affordance. -/
def stopGenStep (s : GenState) : GenState :=
  let s1 := match s.fieldTok with
    | some fid => cancelTok s fid
    | none => s
  { s1 with events := s1.events ++ [.postClearLoading "generateMsgBtn"] }

/-- A whole session: fold the dispatcher over a list of inbound
commands, each arriving with the backend outcomes and clock reading in
force at that moment. -/
def runSession : ProviderState → BackendSt → List (Backend × Nat × Cmd) →
    ProviderState × BackendSt
  | st, bst, [] => (st, bst)
  | st, bst, (b, now, c) :: rest =>
      let r := dispatch b now st bst c
      runSession r.st r.bst rest

/-- A concrete snapshot used by witnesses. -/
def okStatus : GitStatus :=
  { branch := "main", ahead := 0, behind := 0, staged := [], unstaged := [],
    untracked := [] }

/-- A backend on which every call succeeds (witness input). -/
def okBackend : Backend :=
  { isRepo := true, statusResult := .ok okStatus, stageAllResult := .ok (),
    stageFilesResult := .ok (), unstageFilesResult := .ok (),
    commitResult := .ok (), pushResult := .ok (), pullResult := .ok (),
    fetchResult := .ok (), discardResult := .ok (),
    createBranchResult := .ok (), checkoutResult := .ok (),
    deleteBranchResult := .ok (), confirmDiscard := true, confirmDelete := true,
    genOutcome := .ok "feat: something", fallbackAccept := true,
    fallbackText := "chore: update files" }

/-- A backend whose `push` fails while everything else succeeds
(witness input for the commit-and-push partial failure). -/
def pushFailBackend : Backend :=
  { okBackend with pushResult := .error "failed to push some refs" }

/-- A backend whose `checkoutBranch` fails while everything else
succeeds (failing input for the stuck branch-row loading token). -/
def checkoutFailBackend : Backend :=
  { okBackend with checkoutResult := .error "local changes would be overwritten" }

/-- A provider state with a resolved, visible view (failing-input
state for the stuck branch-row loading token). -/
def visibleState : ProviderState :=
  { initialState with isVisible := true }

/-! Helper lemmas: frame properties of the reload paths, and the
dispatcher's preservation facts used by the session-level claims. -/

theorem getHtmlContent_frame (b : Backend) (now : Nat) (st : ProviderState) :
    ∃ c, (getHtmlContent b now st).1 = { st with cachedStatus := c } := by
  unfold getHtmlContent
  cases hr : b.isRepo with
  | false => exact ⟨st.cachedStatus, by simp [hr]⟩
  | true =>
    cases hd : cachedStatusDecision st.cachedStatus st.lastRefresh now with
    | true => exact ⟨st.cachedStatus, by simp [hr, hd]⟩
    | false =>
      cases hs : b.statusResult with
      | ok s => exact ⟨some s, by simp [hr, hd, hs]⟩
      | error e => exact ⟨st.cachedStatus, by simp [hr, hd, hs]⟩

theorem loadContent_frame (b : Backend) (now : Nat) (st : ProviderState) :
    ∃ c lr, (loadContent b now st).1 = { st with cachedStatus := c, lastRefresh := lr } := by
  unfold loadContent
  split
  · exact ⟨st.cachedStatus, st.lastRefresh, rfl⟩
  · obtain ⟨c, hc⟩ := getHtmlContent_frame b now { st with lastRefresh := now }
    exact ⟨c, now, by simp [hc]⟩

theorem refreshM_frame (b : Backend) (now : Nat) (st : ProviderState) :
    ∃ c lr, (refreshM b now st).1 = { st with cachedStatus := c, lastRefresh := lr } := by
  unfold refreshM
  obtain ⟨c, lr, h⟩ := loadContent_frame b now { st with cachedStatus := none }
  exact ⟨c, lr, by simp [h]⟩

theorem dispatch_st (b : Backend) (now : Nat) (st : ProviderState) (bst : BackendSt)
    (c : Cmd) : (dispatch b now st bst c).st = (handle b now st bst c).st := by
  unfold dispatch
  cases h : (handle b now st bst c).thrown <;> simp [h]

theorem handle_commitsLimit (b : Backend) (now : Nat) (st : ProviderState)
    (bst : BackendSt) (c : Cmd) :
    (handle b now st bst c).st.commitsLimit = st.commitsLimit ∨
    (handle b now st bst c).st.commitsLimit = 50 := by
  obtain ⟨c1, l1, h1⟩ := refreshM_frame b now st
  obtain ⟨c2, l2, h2⟩ := loadContent_frame b now { st with commitsLimit := 50 }
  cases c <;> simp only [handle] <;> (repeat' split) <;> simp [h1, h2]

theorem dispatch_commitsLimit (b : Backend) (now : Nat) (st : ProviderState)
    (bst : BackendSt) (c : Cmd) :
    (dispatch b now st bst c).st.commitsLimit = st.commitsLimit ∨
    (dispatch b now st bst c).st.commitsLimit = 50 := by
  rw [dispatch_st]; exact handle_commitsLimit b now st bst c

theorem dispatch_loadMore_50 (b : Backend) (now : Nat) (st : ProviderState)
    (bst : BackendSt) :
    (dispatch b now st bst Cmd.loadMore).st.commitsLimit = 50 := by
  rw [dispatch_st]
  obtain ⟨c2, l2, h2⟩ := loadContent_frame b now { st with commitsLimit := 50 }
  simp only [handle]
  simp [h2]

theorem runSession_commitsLimit (steps : List (Backend × Nat × Cmd)) :
    ∀ st bst, st.commitsLimit ≤ 50 →
      st.commitsLimit ≤ (runSession st bst steps).1.commitsLimit ∧
      (runSession st bst steps).1.commitsLimit ≤ 50 := by
  induction steps with
  | nil => intro st bst h; exact ⟨le_refl _, h⟩
  | cons p rest ih =>
    obtain ⟨b, now, c⟩ := p
    intro st bst h
    have hd := dispatch_commitsLimit b now st bst c
    have h2 : (dispatch b now st bst c).st.commitsLimit ≤ 50 := by
      rcases hd with h' | h' <;> omega
    have h3 : st.commitsLimit ≤ (dispatch b now st bst c).st.commitsLimit := by
      rcases hd with h' | h' <;> omega
    have hrest := ih (dispatch b now st bst c).st (dispatch b now st bst c).bst h2
    simp only [runSession]
    exact ⟨le_trans h3 hrest.1, hrest.2⟩

theorem renderCat_prefixed (ty : String) (fs : List String) :
    ∃ r, renderCat ty fs = ty ++ ": " ++ r := by
  unfold renderCat
  exact ⟨_, by rw [String.append_assoc]⟩

theorem debounceRun_quiet (ts : List Nat) : ∀ t : Nat,
    List.Chain' (fun a b : Nat => a ≤ b ∧ b < a + 1000) (t :: ts) →
    debounceRun (some (t + 1000)) ts = (some (ts.getLastD t + 1000), []) := by
  induction ts with
  | nil => intro t _; rfl
  | cons t' ts' ih =>
    intro t h
    rw [List.chain'_cons] at h
    have hng : ¬ (t + 1000 ≤ t') := by omega
    simp only [debounceRun, debounceNotify, if_neg hng]
    rw [ih t' h.2, List.getLastD_cons]

/-! The claims. -/

/-- C1, counterexample: the claim says a second `generateCommitMessage`
first disposes (implicitly cancels) the prior handle and that no
`commitMessageGenerated` event from the prior request fires afterward.
On the code, starting a second generation while the first is awaiting
leaves the first token neither cancelled nor disposed, and when the
first generation later resolves its `commitMessageGenerated` event is
still delivered. -/
theorem generation_overlap_counterexample :
    (let s2 := (startGen (startGen genInit).1).1
     tokenCancelled s2 0 = false ∧ tokenDisposed s2 0 = false ∧
       Event.postCommitMessageGenerated "first" ∈
         (completeGen (completeGen s2 1 "second") 0 "first").events) := by decide

/-- C1, amended: handling a new `generateCommitMessage` command stores a
fresh cancellation token in `_generationCancelToken`, overwriting the
field while leaving the cancelled and disposed flags of every existing
token unchanged (the prior handle is neither disposed nor cancelled);
consequently a prior request whose token was never cancelled still
delivers its `commitMessageGenerated` event when its generation
resolves. -/
theorem startGen_no_dispose_prior (s : GenState) (tid : Nat) :
    tokenCancelled (startGen s).1 tid = tokenCancelled s tid ∧
    tokenDisposed (startGen s).1 tid = tokenDisposed s tid ∧
    (startGen s).1.fieldTok = some (startGen s).2 ∧
    (tokenCancelled s tid = false → ∀ msg,
       Event.postCommitMessageGenerated msg ∈
         (completeGen (startGen s).1 tid msg).events) := by
  have hfind : ((startGen s).1.tokens).find? (fun t => t.id == tid) =
      ((s.tokens.find? (fun t => t.id == tid)).or
        (([⟨s.nextId, false, false⟩] : List Token).find? (fun t => t.id == tid))) := by
    simp [startGen, List.find?_append]
  have hcan : tokenCancelled (startGen s).1 tid = tokenCancelled s tid := by
    unfold tokenCancelled
    rw [hfind]
    cases h : s.tokens.find? (fun t => t.id == tid) with
    | some tok => rfl
    | none =>
        simp only [List.find?, Option.or]
        by_cases hid : s.nextId == tid <;> simp [hid]
  have hdis : tokenDisposed (startGen s).1 tid = tokenDisposed s tid := by
    unfold tokenDisposed
    rw [hfind]
    cases h : s.tokens.find? (fun t => t.id == tid) with
    | some tok => rfl
    | none =>
        simp only [List.find?, Option.or]
        by_cases hid : s.nextId == tid <;> simp [hid]
  refine ⟨hcan, hdis, rfl, ?_⟩
  intro hc msg
  unfold completeGen
  rw [hcan, hc]
  simp [startGen, disposeTok]

/-- Witness for the C1 amended theorem at a concrete state: completing
an uncancelled request delivers its event. -/
theorem startGen_no_dispose_prior_witness :
    Event.postCommitMessageGenerated "feat: x" ∈
      (completeGen (startGen genInit).1 0 "feat: x").events :=
  (startGen_no_dispose_prior genInit 0).2.2.2 (by decide) "feat: x"

/-- C2: evaluation of the code at the failing input.  The claim says
every loading token set at dispatch (switch-branch and delete-branch
rows included) is cleared on every exit path.  On a `switchBranch`
backend failure the dispatch catch emits only a non-modal error and
`clearAllLoading`; the per-row token `branch-feature-x` is not in the
fixed id list `clearAllLoading` iterates, no re-render follows on the
error path, and the row stays busy — while a fixed-id token such as
`pushBtn` is cleared by the same mechanism. -/
theorem switchBranch_error_stuck_token :
    (dispatch checkoutFailBackend 0 visibleState ⟨[]⟩
        (Cmd.switchBranch "feature-x")).events =
      [.call "checkoutBranch",
       .errorMsg "GitShift: local changes would be overwritten" false,
       .postClearAllLoading] ∧
    sanitizeBranchId "feature-x" = "branch-feature-x" ∧
    runEvents [sanitizeBranchId "feature-x"]
      (dispatch checkoutFailBackend 0 visibleState ⟨[]⟩
        (Cmd.switchBranch "feature-x")).events = ["branch-feature-x"] ∧
    runEvents ["pushBtn"]
      (dispatch { okBackend with pushResult := .error "e" } 0 visibleState ⟨[]⟩
        Cmd.pushCmd).events = [] := by decide

/-- C3: in `commitAndPush` with a non-blank message, when the commit
backend call succeeds and the push call fails, the commit is not rolled
back (the appended commit survives, and is still there after a
subsequent refresh, whose reload reads status from the backend), and
exactly one error is reported, classified push-class (modal). -/
theorem commitAndPush_pushFailure (b : Backend) (now : Nat) (st : ProviderState)
    (bst : BackendSt) (message e : String)
    (hm : blankMsg message = false) (hc : b.commitResult = Except.ok ())
    (hp : b.pushResult = Except.error e) :
    (dispatch b now st bst (Cmd.commitAndPush message)).bst.commits =
      bst.commits ++ [message] ∧
    errorsOf (dispatch b now st bst (Cmd.commitAndPush message)).events =
      [Event.errorMsg ("GitShift: " ++ e) true] ∧
    (∀ b2 n2, (dispatch b2 n2 (dispatch b now st bst (Cmd.commitAndPush message)).st
        (dispatch b now st bst (Cmd.commitAndPush message)).bst Cmd.refreshCmd).bst.commits =
      bst.commits ++ [message]) := by
  have h1 : dispatch b now st bst (Cmd.commitAndPush message) =
      ⟨st, { bst with commits := bst.commits ++ [message] },
        [.call "commit", .infoMsg "Changes committed", .call "push",
         .errorMsg ("GitShift: " ++ e) true, .postClearAllLoading], none⟩ := by
    simp [dispatch, handle, hm, hc, hp, isPushClass]
  have hb : ∀ b2 n2 st2 bst2,
      (dispatch b2 n2 st2 bst2 Cmd.refreshCmd).bst = bst2 := fun _ _ _ _ => rfl
  refine ⟨by rw [h1], by rw [h1]; rfl, ?_⟩
  intro b2 n2
  rw [hb, h1]

/-- Witness for C3 at a concrete backend whose push fails. -/
theorem commitAndPush_pushFailure_witness :
    (dispatch pushFailBackend 0 visibleState ⟨[]⟩ (Cmd.commitAndPush "msg")).bst.commits =
      [] ++ ["msg"] ∧
    errorsOf (dispatch pushFailBackend 0 visibleState ⟨[]⟩ (Cmd.commitAndPush "msg")).events =
      [Event.errorMsg ("GitShift: " ++ "failed to push some refs") true] := by
  have h := commitAndPush_pushFailure pushFailBackend 0 visibleState ⟨[]⟩ "msg"
    "failed to push some refs" (by decide) rfl rfl
  exact ⟨h.1, h.2.1⟩

/-- C4, counterexample: on the spec's own example
`["README.md", "src/app.ts", "test/app.spec.ts"]` with no untracked
overlap, the fallback generator returns `"fix: app.ts"`, not a message
prefixed with `test` — the highest-precedence matching category of the
documented order. -/
theorem fallback_precedence_counterexample :
    generateCommitMessageClient ["README.md", "src/app.ts", "test/app.spec.ts"] []
      = "fix: app.ts" ∧
    (generateCommitMessageClient ["README.md", "src/app.ts", "test/app.spec.ts"] []).toList.take 6
      ≠ "test: ".toList := by decide

/-- C4, amended: the fallback generator is deterministic; each staged
file is classified by the first-match order
test > docs > style > chore > feat(new) > fix > refactor, but the
message is prefixed with the first non-empty category in the object
insertion order feat > fix > docs > style > test > chore > refactor —
so for the spec's example it yields `"fix: app.ts"`. -/
theorem fallback_selection_feat_first (staged untracked : List String) :
    ((catsOf staged untracked).feat ≠ [] →
       ∃ r, generateCommitMessageClient staged untracked = "feat" ++ ": " ++ r) ∧
    ((catsOf staged untracked).feat = [] → (catsOf staged untracked).fix ≠ [] →
       ∃ r, generateCommitMessageClient staged untracked = "fix" ++ ": " ++ r) ∧
    (∀ u acc f, matchTestSpec f = true →
       (classifyFile u acc f).test = acc.test ++ [lastComponent f]) ∧
    generateCommitMessageClient ["README.md", "src/app.ts", "test/app.spec.ts"] []
      = "fix: app.ts" := by
  refine ⟨?_, ?_, ?_, by decide⟩
  · intro h
    cases staged with
    | nil => exact absurd rfl h
    | cons a as =>
        obtain ⟨r, hr⟩ := renderCat_prefixed "feat" (catsOf (a :: as) untracked).feat
        refine ⟨r, ?_⟩
        unfold generateCommitMessageClient buildFromCats
        have hfe : (catsOf (a :: as) untracked).feat.isEmpty = false := by
          simpa using h
        simp [hfe, hr]
  · intro h1 h2
    cases staged with
    | nil => exact absurd rfl h2
    | cons a as =>
        obtain ⟨r, hr⟩ := renderCat_prefixed "fix" (catsOf (a :: as) untracked).fix
        refine ⟨r, ?_⟩
        unfold generateCommitMessageClient buildFromCats
        have hfe : (catsOf (a :: as) untracked).fix.isEmpty = false := by
          simpa using h2
        simp [h1, hfe, hr]
  · intro u acc f h
    simp [classifyFile, h]

/-- Witness for the C4 amended theorem: the example's message is
fix-prefixed. -/
theorem fallback_selection_feat_first_witness :
    ∃ r, generateCommitMessageClient ["README.md", "src/app.ts", "test/app.spec.ts"] []
      = "fix" ++ ": " ++ r :=
  (fallback_selection_feat_first ["README.md", "src/app.ts", "test/app.spec.ts"] []).2.1
    (by decide) (by decide)

/-- C5: for a non-empty, time-ordered notification sequence whose
consecutive gaps are all under the 1000 ms quiet period, exactly one
cache invalidation fires, at exactly 1000 ms after the last
notification (each notification having cancelled and restarted the
pending timer). -/
theorem debounce_exactly_one_invalidation (t : Nat) (ts : List Nat)
    (h : List.Chain' (fun a b : Nat => a ≤ b ∧ b < a + 1000) (t :: ts)) :
    debounceComplete (t :: ts) = [ts.getLastD t + 1000] := by
  have h0 : debounceRun none (t :: ts) = debounceRun (some (t + 1000)) ts := rfl
  unfold debounceComplete
  rw [h0, debounceRun_quiet ts t h]
  rfl

/-- Witness for C5: notifications at 0, 400 and 900 ms yield the single
invalidation at 1900 ms. -/
theorem debounce_exactly_one_invalidation_witness :
    debounceComplete [0, 400, 900] = [1900] :=
  debounce_exactly_one_invalidation 0 [400, 900]
    (by rw [List.chain'_cons, List.chain'_cons]
        refine ⟨⟨?_, ?_⟩, ⟨?_, ?_⟩, List.chain'_singleton _⟩ <;> omega)

/-- C6, counterexample: the claim says that at 2000 ms and beyond since
the snapshot was recorded the cache is treated as absent and a fresh
`getStatus` fetch is performed.  On the code, `_loadContent` restamps
`_lastRefresh` to the load's start time (line 175) before the line-532
guard runs, so the guard's age term is zero at every load: a snapshot
recorded at t = 0 (load while visible), after hiding at t = 100, is
served again by the visibility-triggered reload at t = 3000 — the
reload does run (its event list is non-empty) yet makes no `getStatus`
call. -/
theorem statusCache_restamp_counterexample :
    (let st1 := (loadContent okBackend 0 { initialState with isVisible := true }).1
     let st2 := (onVisibilityChange okBackend 100 false st1).1
     st1.cachedStatus = some okStatus ∧ st1.lastRefresh = 0 ∧
       (onVisibilityChange okBackend 3000 true st2).1.cachedStatus = some okStatus ∧
       (onVisibilityChange okBackend 3000 true st2).2 ≠ [] ∧
       Event.call "getStatus" ∉ (onVisibilityChange okBackend 3000 true st2).2) := by
  decide

/-- C6, amended: the line-532 guard, in isolation, serves the cache iff
an entry is present and `now - lastRefresh` is strictly below 2000 ms;
but because `_loadContent` restamps `_lastRefresh` immediately before
building the HTML, within every load the decision degenerates to a
presence check — a present snapshot is served (and kept) no matter how
long ago it was recorded, and a fresh `getStatus` is performed exactly
when the cache was explicitly invalidated (cleared) beforehand. -/
theorem statusCache_presence_only (b : Backend) (now : Nat) (st : ProviderState)
    (hrepo : b.isRepo = true) (hvis : st.isVisible = true) :
    (∀ c lr n, cachedStatusDecision c lr n = true ↔ c ≠ none ∧ n - lr < 2000) ∧
    (∀ s, st.cachedStatus = some s →
       Event.call "getStatus" ∉ (loadContent b now st).2 ∧
       (loadContent b now st).1.cachedStatus = some s) ∧
    (st.cachedStatus = none →
       Event.call "getStatus" ∈ (loadContent b now st).2) := by
  refine ⟨?_, ?_, ?_⟩
  · intro c lr n
    simp [cachedStatusDecision, Bool.and_eq_true, decide_eq_true_eq,
      Option.isSome_iff_ne_none]
  · intro s hs
    unfold loadContent getHtmlContent
    simp [hvis, hs, hrepo, cachedStatusDecision]
  · intro hs
    unfold loadContent getHtmlContent
    cases hr : b.statusResult <;> simp [hvis, hs, hrepo, hr, cachedStatusDecision]

/-- Witness for the C6 amended theorem: a 5000 ms-old snapshot is still
served with no fresh fetch. -/
theorem statusCache_presence_only_witness :
    Event.call "getStatus" ∉
      (loadContent okBackend 5000
        { initialState with
            isVisible := true, cachedStatus := some okStatus, lastRefresh := 0 }).2 :=
  ((statusCache_presence_only okBackend 5000 _ rfl rfl).2.1 okStatus rfl).1

/-- C7, counterexample: the cache is invalidated by the debounced
watcher while the surface is hidden (initial load at 0 ms, hidden at
100 ms, timer fires at 1200 ms), yet the visibility transition back to
visible at 1500 ms triggers nothing — the `onDidChangeVisibility` guard
compares `now - lastRefresh` with 2000 ms and ignores the cache, so no
refetch fires at the transition. -/
theorem visibility_refetch_counterexample :
    (let st1 := (loadContent okBackend 0 { initialState with isVisible := true }).1
     let st2 := (onVisibilityChange okBackend 100 false st1).1
     let st3 := (fireDebounce okBackend 1200 st2).1
     st3.cachedStatus = none ∧ st3.isVisible = false ∧
       (onVisibilityChange okBackend 1500 true st3).2 = []) := by decide

/-- C7, amended: after an invalidation left the cache absent, the
transition to visible triggers a `getStatus` refetch iff more than
2000 ms have passed since the last refresh; otherwise the transition
does nothing and the cache stays absent, so whichever load runs next
must refetch. -/
theorem visibility_invalidated_refetch (b : Backend) (now : Nat) (st : ProviderState)
    (hrepo : b.isRepo = true) (hcache : st.cachedStatus = none) :
    (Event.call "getStatus" ∈ (onVisibilityChange b now true st).2 ↔
       now - st.lastRefresh > 2000) ∧
    (¬ now - st.lastRefresh > 2000 →
       (onVisibilityChange b now true st).1.cachedStatus = none ∧
       (onVisibilityChange b now true st).2 = []) := by
  unfold onVisibilityChange
  by_cases hgt : now - st.lastRefresh > 2000
  · unfold loadContent getHtmlContent
    cases hs : b.statusResult <;>
      simp [hgt, hs, hrepo, hcache, cachedStatusDecision]
  · simp [hgt, hcache]

/-- Witness for the C7 amended theorem: a stale, invalidated state
refetches on becoming visible. -/
theorem visibility_invalidated_refetch_witness :
    Event.call "getStatus" ∈ (onVisibilityChange okBackend 3000 true initialState).2 :=
  (visibility_invalidated_refetch okBackend 3000 initialState rfl rfl).1.mpr (by decide)

/-- C8: a commit whose message is empty or all-whitespace never reaches
the backend: the dispatcher's whole output is the warning plus the
`commitBtn` clear, the provider and backend states are untouched, and
the backend-call trace is empty. -/
theorem commit_blank_no_backend (b : Backend) (now : Nat) (st : ProviderState)
    (bst : BackendSt) (message : String) (h : blankMsg message = true) :
    dispatch b now st bst (Cmd.commitCmd message) =
      ⟨st, bst, [.warnMsg "Commit message cannot be empty",
                 .postClearLoading "commitBtn"], none⟩ ∧
    callsOf (dispatch b now st bst (Cmd.commitCmd message)).events = [] := by
  have h1 : dispatch b now st bst (Cmd.commitCmd message) =
      ⟨st, bst, [.warnMsg "Commit message cannot be empty",
                 .postClearLoading "commitBtn"], none⟩ := by
    simp [dispatch, handle, h]
  exact ⟨h1, by rw [h1]; rfl⟩

/-- Witness for C8 at both of the spec's inputs, the empty string and
three spaces. -/
theorem commit_blank_no_backend_witness :
    (blankMsg "" = true ∧
      dispatch okBackend 0 visibleState ⟨[]⟩ (Cmd.commitCmd "") =
        ⟨visibleState, ⟨[]⟩, [.warnMsg "Commit message cannot be empty",
                              .postClearLoading "commitBtn"], none⟩) ∧
    (blankMsg "   " = true ∧
      dispatch okBackend 0 visibleState ⟨[]⟩ (Cmd.commitCmd "   ") =
        ⟨visibleState, ⟨[]⟩, [.warnMsg "Commit message cannot be empty",
                              .postClearLoading "commitBtn"], none⟩) :=
  ⟨⟨by decide, (commit_blank_no_backend okBackend 0 visibleState ⟨[]⟩ "" (by decide)).1⟩,
   ⟨by decide, (commit_blank_no_backend okBackend 0 visibleState ⟨[]⟩ "   " (by decide)).1⟩⟩

/-- C9: `commitsLimit` starts at 20, any `loadMore` sets it to exactly
50 (so a second `loadMore` leaves it at 50), and along any session —
any command sequence from a state within the reachable bound — the
limit never decreases and never exceeds 50. -/
theorem commitsLimit_monotone_session :
    initialState.commitsLimit = 20 ∧
    (∀ b now st bst, (dispatch b now st bst Cmd.loadMore).st.commitsLimit = 50) ∧
    (∀ steps st bst, st.commitsLimit ≤ 50 →
       st.commitsLimit ≤ (runSession st bst steps).1.commitsLimit ∧
       (runSession st bst steps).1.commitsLimit ≤ 50) := by
  refine ⟨rfl, dispatch_loadMore_50, ?_⟩
  intro steps st bst h
  exact runSession_commitsLimit steps st bst h

/-- Witness for C9: two consecutive `loadMore` commands from the
initial state keep the limit monotone (at 50). -/
theorem commitsLimit_monotone_session_witness :
    initialState.commitsLimit ≤
      (runSession initialState ⟨[]⟩
        [(okBackend, 5, Cmd.loadMore), (okBackend, 9, Cmd.loadMore)]).1.commitsLimit := by
  have h := commitsLimit_monotone_session
  exact (h.2.2 [(okBackend, 5, Cmd.loadMore), (okBackend, 9, Cmd.loadMore)]
    initialState ⟨[]⟩ (by decide)).1

/-- C10: handling `switchTab` only assigns `_activeTab`: the cached
snapshot, `commitsLimit`, `lastRefresh` and visibility are unchanged,
the backend state is untouched, and the run emits no event at all — no
backend call, no refresh, no outbound render. -/
theorem switchTab_only_activeTab (b : Backend) (now : Nat) (st : ProviderState)
    (bst : BackendSt) (tab : String) :
    (dispatch b now st bst (Cmd.switchTab tab)).st.activeTab = tab ∧
    (dispatch b now st bst (Cmd.switchTab tab)).st.cachedStatus = st.cachedStatus ∧
    (dispatch b now st bst (Cmd.switchTab tab)).st.commitsLimit = st.commitsLimit ∧
    (dispatch b now st bst (Cmd.switchTab tab)).st.lastRefresh = st.lastRefresh ∧
    (dispatch b now st bst (Cmd.switchTab tab)).st.isVisible = st.isVisible ∧
    (dispatch b now st bst (Cmd.switchTab tab)).bst = bst ∧
    (dispatch b now st bst (Cmd.switchTab tab)).events = [] :=
  ⟨rfl, rfl, rfl, rfl, rfl, rfl, rfl⟩

end GitShift
